import Mathlib

/-
Verification of `app/tool/manus_agent_tool.py` (class `ManusAgentTool`).

The file shallowly embeds the three components of the module:
  * the result summarizer `_extract_summary_from_result` (source lines 87-116),
  * the streaming driver `_run_with_streaming` (source lines 118-290),
  * the tool adapter `execute` (source lines 44-85).

Python exceptions are modelled by the type `PyExc`; fallible code returns
`Except PyExc _`.  JSON-serialized outputs (`json.dumps(...)`) are modelled
structurally, as the dictionary that is passed to `json.dumps`.  The external
`Manus` agent (not part of the repository sources) is modelled as an opaque
behaviour record `AgentBehavior` supplying the results of `Manus()`,
`agent.run`, `agent.think` and `agent.act`, in line with the Agent Handle
contract: `think`/`act` may change the agent's `state` and memory but the
driver alone manages `current_step`/`max_steps` during a streaming run.
-/

namespace OpenManus

/-- Python exception classes that the module's `try/except` clauses
distinguish.  `other` stands for any other `Exception` subclass, carrying
`str(e)`. -/
inductive PyExc
  | jsonDecodeError
  | typeError
  | valueError
  | attributeError
  | other (msg : String)
deriving DecidableEq

/-- The string `str(e)` of an exception.  For the built-in classes the exact
message text is irrelevant to every claim, so the class name stands in for
it. -/
def pyExcMsg : PyExc → String
  | PyExc.jsonDecodeError => "JSONDecodeError"
  | PyExc.typeError => "TypeError"
  | PyExc.valueError => "ValueError"
  | PyExc.attributeError => "AttributeError"
  | PyExc.other msg => msg

/-- Python slicing-with-ellipsis idiom `s[:n] + "..." if len(s) > n else s`,
used throughout the module (50, 100, 150 and 300 character caps). -/
def truncAt (n : Nat) (s : String) : String :=
  if s.length > n then s.take n ++ "..." else s

/-- Python `l[-n:]`: the last `n` elements (the whole list when it is
shorter). -/
def pyLastN (n : Nat) (l : List α) : List α :=
  l.drop (l.length - n)

/-- JSON values as produced by `json.loads`.  Numbers are represented as
rationals (the int/float distinction of Python only affects `str()`
rendering, which no claim depends on); `NaN`/`Infinity` literals are
omitted. -/
inductive Json
  | null
  | bool (b : Bool)
  | num (q : Rat)
  | str (s : String)
  | arr (xs : List Json)
  | obj (kvs : List (String × Json))

/- Character constants, named to keep punctuation out of literals. -/

def cQuote : Char := Char.ofNat 34

def cBackslash : Char := Char.ofNat 92

def cSlash : Char := Char.ofNat 47

def cLBrace : Char := Char.ofNat 123

def cRBrace : Char := Char.ofNat 125

def cLBrack : Char := Char.ofNat 91

def cRBrack : Char := Char.ofNat 93

def cComma : Char := Char.ofNat 44

def cColon : Char := Char.ofNat 58

def cMinus : Char := Char.ofNat 45

def cPlus : Char := Char.ofNat 43

def cDot : Char := Char.ofNat 46

def cZero : Char := Char.ofNat 48

/-- JSON whitespace (space, tab, newline, carriage return). -/
def isJsonWs (c : Char) : Bool :=
  (c == Char.ofNat 32) || (c == Char.ofNat 9) || (c == Char.ofNat 10) || (c == Char.ofNat 13)

def skipWs : List Char → List Char
  | [] => []
  | c :: cs => if isJsonWs c then skipWs cs else c :: cs

def hexVal (c : Char) : Option Nat :=
  if c.isDigit then some (c.toNat - 48)
  else if 97 ≤ c.toNat ∧ c.toNat ≤ 102 then some (c.toNat - 87)
  else if 65 ≤ c.toNat ∧ c.toNat ≤ 70 then some (c.toNat - 55)
  else none

/-- Body of a JSON string literal, after the opening quote.  Returns the
decoded characters and the remaining input.  Lone surrogate escapes are
approximated by `Char.ofNat`'s fallback. -/
def parseStrChars : List Char → Option (List Char × List Char)
  | [] => none
  | c :: cs =>
    if c = cQuote then some ([], cs)
    else if c = cBackslash then
      match cs with
      | [] => none
      | e :: cs2 =>
        if e = cQuote then (parseStrChars cs2).map (fun p => (cQuote :: p.1, p.2))
        else if e = cBackslash then (parseStrChars cs2).map (fun p => (cBackslash :: p.1, p.2))
        else if e = cSlash then (parseStrChars cs2).map (fun p => (cSlash :: p.1, p.2))
        else if e = 'b' then (parseStrChars cs2).map (fun p => (Char.ofNat 8 :: p.1, p.2))
        else if e = 'f' then (parseStrChars cs2).map (fun p => (Char.ofNat 12 :: p.1, p.2))
        else if e = 'n' then (parseStrChars cs2).map (fun p => (Char.ofNat 10 :: p.1, p.2))
        else if e = 'r' then (parseStrChars cs2).map (fun p => (Char.ofNat 13 :: p.1, p.2))
        else if e = 't' then (parseStrChars cs2).map (fun p => (Char.ofNat 9 :: p.1, p.2))
        else if e = 'u' then
          match cs2 with
          | h1 :: h2 :: h3 :: h4 :: cs3 =>
            match hexVal h1, hexVal h2, hexVal h3, hexVal h4 with
            | some a, some b, some c2, some d =>
              (parseStrChars cs3).map
                (fun p => (Char.ofNat (((a * 16 + b) * 16 + c2) * 16 + d) :: p.1, p.2))
            | _, _, _, _ => none
          | _ => none
        else none
    else if c.toNat < 32 then none
    else (parseStrChars cs).map (fun p => (c :: p.1, p.2))

def digitsToNat (ds : List Char) : Nat :=
  ds.foldl (fun a c => a * 10 + (c.toNat - 48)) 0

/-- Numeric value from the parsed sign / integer digits / fraction digits /
exponent parts. -/
def mkNum (neg : Bool) (ip fp : List Char) (eneg : Bool) (ed : List Char) : Rat :=
  if fp.isEmpty ∧ ed.isEmpty then
    let i : Rat := (digitsToNat ip : Rat)
    if neg then -i else i
  else
    let i : Rat := (digitsToNat ip : Rat)
    let f : Rat := (digitsToNat fp : Rat) / ((10 : Rat) ^ fp.length)
    let e : Nat := digitsToNat ed
    let base := i + f
    let scaled := if eneg then base / ((10 : Rat) ^ e) else base * ((10 : Rat) ^ e)
    if neg then -scaled else scaled

/-- The fraction and exponent tail of a JSON number. -/
def parseNumTail (neg : Bool) (ip : List Char) (cs : List Char) : Option (Json × List Char) :=
  let fracRes : Option (List Char × List Char) :=
    match cs with
    | c :: rest =>
      if c = cDot then
        let p := List.span (fun x => x.isDigit) rest
        if p.1.isEmpty then none else some (p.1, p.2)
      else some ([], cs)
    | [] => some ([], cs)
  match fracRes with
  | none => none
  | some (fp, cs2) =>
    let expRes : Option (Bool × List Char × List Char) :=
      match cs2 with
      | c :: rest =>
        if c = 'e' ∨ c = 'E' then
          match rest with
          | s :: rest2 =>
            if s = cPlus then
              let p := List.span (fun x => x.isDigit) rest2
              if p.1.isEmpty then none else some (false, p.1, p.2)
            else if s = cMinus then
              let p := List.span (fun x => x.isDigit) rest2
              if p.1.isEmpty then none else some (true, p.1, p.2)
            else
              let p := List.span (fun x => x.isDigit) rest
              if p.1.isEmpty then none else some (false, p.1, p.2)
          | [] => none
        else some (false, [], cs2)
      | [] => some (false, [], cs2)
    match expRes with
    | none => none
    | some (eneg, ed, cs3) => some (Json.num (mkNum neg ip fp eneg ed), cs3)

/-- A JSON number (strict grammar: no leading `+`, no leading zeros). -/
def parseNumber (cs0 : List Char) : Option (Json × List Char) :=
  let p : Bool × List Char :=
    match cs0 with
    | c :: rest => if c = cMinus then (true, rest) else (false, cs0)
    | [] => (false, cs0)
  match p.2 with
  | [] => none
  | d :: rest1 =>
    if d = cZero then parseNumTail p.1 [d] rest1
    else if d.isDigit then
      let q := List.span (fun x => x.isDigit) p.2
      parseNumTail p.1 q.1 q.2
    else none

/-- Python-`dict` insertion: replace the value when the key is present
(keeping first-insertion order), append otherwise. -/
def setKey (kvs : List (String × Json)) (k : String) (v : Json) : List (String × Json) :=
  if kvs.any (fun kv => kv.1 == k) then
    kvs.map (fun kv => if kv.1 == k then (k, v) else kv)
  else kvs ++ [(k, v)]

mutual

/-- Recursive-descent JSON value parser (fuel-indexed; the fuel passed at the
top level always suffices, so exhaustion never cuts a parse short). -/
def parseVal : Nat → List Char → Option (Json × List Char)
  | 0, _ => none
  | Nat.succ f, cs0 =>
    let cs := skipWs cs0
    match cs with
    | [] => none
    | c :: rest =>
      if c = cQuote then
        match parseStrChars rest with
        | some (sc, r) => some (Json.str (String.mk sc), r)
        | none => none
      else if c = cLBrace then
        let cs2 := skipWs rest
        match cs2 with
        | c2 :: rest2 =>
          if c2 = cRBrace then some (Json.obj [], rest2)
          else (parseMembers f [] cs2).map (fun p => (Json.obj p.1, p.2))
        | [] => none
      else if c = cLBrack then
        let cs2 := skipWs rest
        match cs2 with
        | c2 :: rest2 =>
          if c2 = cRBrack then some (Json.arr [], rest2)
          else (parseItems f [] cs2).map (fun p => (Json.arr p.1, p.2))
        | [] => none
      else
        match cs with
        | 't' :: 'r' :: 'u' :: 'e' :: r => some (Json.bool true, r)
        | 'f' :: 'a' :: 'l' :: 's' :: 'e' :: r => some (Json.bool false, r)
        | 'n' :: 'u' :: 'l' :: 'l' :: r => some (Json.null, r)
        | _ => parseNumber cs

/-- Members of a JSON object, after at least one member is known to follow. -/
def parseMembers : Nat → List (String × Json) → List Char →
    Option (List (String × Json) × List Char)
  | 0, _, _ => none
  | Nat.succ f, acc, cs0 =>
    let cs := skipWs cs0
    match cs with
    | [] => none
    | c :: rest =>
      if c = cQuote then
        match parseStrChars rest with
        | none => none
        | some (kc, r1) =>
          match skipWs r1 with
          | [] => none
          | c2 :: r3 =>
            if c2 = cColon then
              match parseVal f r3 with
              | none => none
              | some (v, r4) =>
                let acc2 := setKey acc (String.mk kc) v
                match skipWs r4 with
                | [] => none
                | c3 :: r6 =>
                  if c3 = cComma then parseMembers f acc2 r6
                  else if c3 = cRBrace then some (acc2, r6)
                  else none
            else none
      else none

/-- Items of a JSON array, after at least one item is known to follow. -/
def parseItems : Nat → List Json → List Char → Option (List Json × List Char)
  | 0, _, _ => none
  | Nat.succ f, acc, cs =>
    match parseVal f cs with
    | none => none
    | some (v, r) =>
      match skipWs r with
      | [] => none
      | c :: r3 =>
        if c = cComma then parseItems f (acc ++ [v]) r3
        else if c = cRBrack then some (acc ++ [v], r3)
        else none

end

/-- The embedding of `json.loads`: parse a complete document, rejecting
trailing garbage (Python's "Extra data" error). `none` models a raised
`json.JSONDecodeError`. -/
def Json.parse (s : String) : Option Json :=
  let cs := s.data
  match parseVal (2 * cs.length + 2) cs with
  | some (v, rest) => if (skipWs rest).isEmpty then some v else none
  | none => none

/- Python operations on JSON values, with the exceptions they raise. -/

/-- Python truthiness of a decoded JSON value. -/
def pyTruthy : Json → Bool
  | Json.null => false
  | Json.bool b => b
  | Json.num q => decide (q ≠ 0)
  | Json.str s => decide (s ≠ "")
  | Json.arr xs => !xs.isEmpty
  | Json.obj kvs => !kvs.isEmpty

/-- Key membership test `k in data` on a dict's entry list. -/
def hasKey (kvs : List (String × Json)) (k : String) : Bool :=
  kvs.any (fun kv => kv.1 == k)

/-- Dict lookup on a dict's entry list. -/
def jsonLookup (kvs : List (String × Json)) (k : String) : Option Json :=
  (kvs.find? (fun kv => kv.1 == k)).map (fun kv => kv.2)

/-- Python `v.get(k, default)`: only dicts expose `.get`; every other value
raises `AttributeError`. -/
def pyDictGet (v : Json) (k : String) (dflt : Json) : Except PyExc Json :=
  match v with
  | Json.obj kvs => Except.ok ((jsonLookup kvs k).getD dflt)
  | _ => Except.error PyExc.attributeError

/-- Python iteration `for x in v`: lists yield elements, strings yield
one-character strings, dicts yield their keys; other values raise
`TypeError`. -/
def pyIter : Json → Except PyExc (List Json)
  | Json.arr xs => Except.ok xs
  | Json.str s => Except.ok (s.data.map (fun c => Json.str (String.mk [c])))
  | Json.obj kvs => Except.ok (kvs.map (fun kv => Json.str kv.1))
  | _ => Except.error PyExc.typeError

/-- Prefix test on character lists. -/
def startsWithChars : List Char → List Char → Bool
  | [], _ => true
  | _ :: _, [] => false
  | a :: as, b :: bs => (a == b) && startsWithChars as bs

/-- Substring test on character lists. -/
def listHasSub (nd : List Char) : List Char → Bool
  | [] => nd.isEmpty
  | c :: cs => startsWithChars nd (c :: cs) || listHasSub nd cs

/-- Python `needle in v` for a string needle: substring test on strings,
element test on lists, key test on dicts; `TypeError` otherwise. -/
def pyContainsStr (needle : String) : Json → Except PyExc Bool
  | Json.str s => Except.ok (listHasSub needle.data s.data)
  | Json.arr xs =>
    Except.ok (xs.any (fun x => match x with
      | Json.str s => s == needle
      | _ => false))
  | Json.obj kvs => Except.ok (hasKey kvs needle)
  | _ => Except.error PyExc.typeError

/-- Worker for `pySplit` (fuelled; the fuel supplied always suffices since
every call consumes at least one character). -/
def pySplitAux (sep : List Char) : Nat → List Char → List Char → List (List Char)
  | 0, cs, acc => [acc.reverse ++ cs]
  | Nat.succ f, cs, acc =>
    match cs with
    | [] => [acc.reverse]
    | c :: cs2 =>
      if startsWithChars sep cs then
        acc.reverse :: pySplitAux sep f (cs.drop sep.length) []
      else pySplitAux sep f cs2 (c :: acc)

/-- Python `s.split(sep)` for a non-empty separator: non-overlapping
left-to-right splits, keeping empty segments. -/
def pySplit (sep s : String) : List String :=
  if sep.isEmpty then [s]
  else (pySplitAux sep.data (s.data.length + 1) s.data []).map String.mk

/-- Rendering of a rational as Python prints a JSON number.  Integers match
Python exactly; the float decimal rendering is approximated (it never feeds a
theorem). -/
def ratStr (q : Rat) : String :=
  if q.den = 1 then toString q.num else toString q.num ++ "/" ++ toString q.den

mutual

/-- Approximation of Python `repr` for decoded JSON values. -/
def pyRepr : Json → String
  | Json.null => "None"
  | Json.bool true => "True"
  | Json.bool false => "False"
  | Json.num q => ratStr q
  | Json.str s => "\x27" ++ s ++ "\x27"
  | Json.arr xs => "[" ++ pyReprItems xs ++ "]"
  | Json.obj kvs => "\x7b" ++ pyReprPairs kvs ++ "\x7d"

def pyReprItems : List Json → String
  | [] => ""
  | [x] => pyRepr x
  | x :: xs => pyRepr x ++ ", " ++ pyReprItems xs

def pyReprPairs : List (String × Json) → String
  | [] => ""
  | [kv] => "\x27" ++ kv.1 ++ "\x27: " ++ pyRepr kv.2
  | kv :: kvs => "\x27" ++ kv.1 ++ "\x27: " ++ pyRepr kv.2 ++ ", " ++ pyReprPairs kvs

end

/-- Python `str()` of a decoded JSON value (used by the f-string in the
flight-search synopsis). -/
def pyStr : Json → String
  | Json.str s => s
  | v => pyRepr v

/- The summarizer `_extract_summary_from_result`, source lines 87-116. -/

/-- Source line 102: `next((f['price'] for f in flights if f.get('price')),
'Unknown')` — lazily scan for the first entry with a truthy price;
non-dict entries raise `AttributeError` at `f.get`. -/
def firstPrice : List Json → Except PyExc Json
  | [] => Except.ok (Json.str "Unknown")
  | f :: rest => do
    let p ← pyDictGet f "price" Json.null
    if pyTruthy p then Except.ok p else firstPrice rest

/-- Source lines 103-104: first entry with a truthy duration whose stop
description contains "Nonstop". -/
def firstNonstop : List Json → Except PyExc String
  | [] => Except.ok "No nonstop flights"
  | f :: rest => do
    let d ← pyDictGet f "duration" Json.null
    if pyTruthy d then
      let s ← pyDictGet f "stops" (Json.str "")
      let c ← pyContainsStr "Nonstop" s
      if c then Except.ok ("Duration: " ++ pyStr d) else firstNonstop rest
    else firstNonstop rest

/-- Source lines 100-105: the flight-search synopsis, entered when the parsed
dict has a `flight_search_details` key. -/
def flightSummary (kvs : List (String × Json)) : Except PyExc String := do
  let fsd1 ← pyDictGet (Json.obj kvs) "flight_search_details" (Json.obj [])
  let route ← pyDictGet fsd1 "route" (Json.str "Unknown route")
  let fsd2 ← pyDictGet (Json.obj kvs) "flight_search_details" (Json.obj [])
  let dates ← pyDictGet fsd2 "dates" (Json.str "Unknown dates")
  let av1 ← pyDictGet (Json.obj kvs) "available_flights" (Json.arr [])
  let it1 ← pyIter av1
  let cheapest ← firstPrice it1
  let av2 ← pyDictGet (Json.obj kvs) "available_flights" (Json.arr [])
  let it2 ← pyIter av2
  let fastest ← firstNonstop it2
  Except.ok ("Flight search for " ++ pyStr route ++ ", " ++ pyStr dates ++
    ". Cheapest: " ++ pyStr cheapest ++ ". " ++ fastest)

/-- Source lines 92-112: the body of the `try` block of
`_extract_summary_from_result`.  A `jsonDecodeError` result stands for the
exception raised by `json.loads`. -/
def extractSummaryTryBody (result : String) : Except PyExc String :=
  match Json.parse result with
  | none => Except.error PyExc.jsonDecodeError
  | some data =>
    match data with
    | Json.obj kvs =>
      if hasKey kvs "flight_search_details" then flightSummary kvs
      else if ["interactive_elements", "available_flights", "flight_search"].any
          (fun k => hasKey kvs k) then
        Except.ok ("Extracted page information with " ++ toString kvs.length ++ " data points")
      else Except.ok ("Result: " ++ truncAt 150 result)
    | _ => Except.ok ("Result: " ++ truncAt 150 result)

/-- Source lines 87-116: `_extract_summary_from_result`.  The `except` clause
catches exactly `json.JSONDecodeError`, `TypeError` and `ValueError`; any
other exception (notably `AttributeError`) propagates to the caller. -/
def extract_summary_from_result (result : String) : Except PyExc String :=
  match extractSummaryTryBody result with
  | Except.ok s => Except.ok s
  | Except.error e =>
    if e = PyExc.jsonDecodeError ∨ e = PyExc.typeError ∨ e = PyExc.valueError then
      Except.ok ("Result: " ++ truncAt 100 result)
    else Except.error e

/- The streaming driver `_run_with_streaming`, source lines 118-290. -/

/-- Agent execution state (`app.schema.AgentState`, used via
`IDLE`/`RUNNING`/`FINISHED`). -/
inductive AgentState
  | idle
  | running
  | finished
deriving DecidableEq

/-- One entry of the agent's memory log; in this model every entry exposes
`role` and `content` (so the `hasattr` filters of the source are the
identity). -/
structure Msg where
  role : String
  content : String
deriving DecidableEq

/-- One yielded progress update, modelled as the dictionary passed to
`json.dumps` (the `traceback` diagnostic field is not modelled; `error`'s
`step` is absent for construction/initialization/driver-level failures). -/
inductive Event
  | started (step : Int) (message : String)
  | thinking (step : Int) (content : String)
  | acting (step : Int) (action : String)
  | error (step : Option Int) (errorMsg : String)
  | complete (content : String) (stepsSummary : List String) (totalSteps : Int)
deriving DecidableEq

/-- The `current_step` value an event reports (the `step` payload field, or
`total_steps` for the terminal event). -/
def Event.stepOf : Event → Option Int
  | Event.started s _ => some s
  | Event.thinking s _ => some s
  | Event.acting s _ => some s
  | Event.error s _ => s
  | Event.complete _ _ t => some t

/-- The `step` payload fields occurring in an event sequence, in emission
order. -/
def eventSteps (evs : List Event) : List Int :=
  evs.filterMap Event.stepOf

/-- The external `Manus` agent, modelled as an oracle for the outcome of each
of its operations.  `think`/`act` receive the current step number and memory
and report the new agent `state` and memory alongside their result; an
exception outcome leaves the agent's fields as they were.  `construct`
models `Manus()` raising, `init` the initialization assignments of lines
146-150, `run` the opaque `agent.run(prompt)`. -/
structure AgentBehavior where
  construct : Except PyExc Unit
  defaultMaxSteps : Int
  run : String → Except PyExc String
  init : Except PyExc Unit
  think : Int → List Msg → Except PyExc (Bool × AgentState × List Msg)
  act : Int → List Msg → Except PyExc (String × AgentState × List Msg)

/-- The mutable data the streaming loop works on: the agent's `current_step`,
`state` and memory, plus the driver's local `actions_summary`. -/
structure LoopSt where
  currentStep : Int
  state : AgentState
  memory : List Msg
  actions : List String

/-- Content of the last role/content entry among the final `n` memory
entries (`[msg for msg in messages[-n:] if hasattr(...)][-1].content`, with
the stated default when empty). -/
def lastRoleContent (n : Nat) (msgs : List Msg) (dflt : String) : String :=
  match (pyLastN n msgs).getLast? with
  | some m => m.content
  | none => dflt

/-- Source lines 175-241: one iteration of the step loop.  `think()` raising
is caught at line 230 (error event, error note in the action log, state
forced to FINISHED); `act()` raising — or the summarizer raising while the
act result is processed — is caught at line 221 (error event only, nothing
appended, state left as the agent set it). -/
def stepBody (beh : AgentBehavior) (st : LoopSt) : LoopSt × List Event :=
  let n := st.currentStep + 1
  match beh.think n st.memory with
  | Except.error e =>
    ({ currentStep := n, state := AgentState.finished, memory := st.memory,
       actions := st.actions ++ ["Step " ++ toString n ++ ": Error - " ++ pyExcMsg e] },
     [Event.error (some n) (pyExcMsg e)])
  | Except.ok (shouldAct, st1, mem1) =>
    let evThink := Event.thinking n (truncAt 150 (lastRoleContent 2 mem1 "No content available"))
    if shouldAct then
      match beh.act n mem1 with
      | Except.ok (result, st2, mem2) =>
        match extract_summary_from_result result with
        | Except.ok summary =>
          ({ currentStep := n, state := st2, memory := mem2,
             actions := st.actions ++ ["Step " ++ toString n ++ ": " ++ summary] },
           [evThink, Event.acting n summary])
        | Except.error e =>
          ({ currentStep := n, state := st2, memory := mem2, actions := st.actions },
           [evThink, Event.error (some n) ("Act error: " ++ pyExcMsg e)])
      | Except.error e =>
        ({ currentStep := n, state := st1, memory := mem1, actions := st.actions },
         [evThink, Event.error (some n) ("Act error: " ++ pyExcMsg e)])
    else
      ({ currentStep := n, state := st1, memory := mem1, actions := st.actions }, [evThink])

/-- Source lines 174-250: `while state == RUNNING and current_step <
max_steps`, with the post-body `break` on FINISHED.  The loop is fuelled;
the fuel supplied by the driver always dominates the number of iterations,
so exhaustion never cuts a run short. -/
def runLoop (beh : AgentBehavior) (maxSteps : Int) : Nat → LoopSt → LoopSt × List Event
  | 0, st => (st, [])
  | Nat.succ f, st =>
    if st.state = AgentState.running ∧ st.currentStep < maxSteps then
      if (stepBody beh st).1.state = AgentState.finished then stepBody beh st
      else
        ((runLoop beh maxSteps f (stepBody beh st).1).1,
         (stepBody beh st).2 ++ (runLoop beh maxSteps f (stepBody beh st).1).2)
    else (st, [])

/-- Source lines 144-280: the streaming run once an agent with the given
step budget exists — initialization, started event, step loop, and the
completion summary built from the final memory and action log. -/
def streamAfterCreate (beh : AgentBehavior) (prompt : String) (maxSteps : Int) :
    List Event × Option PyExc :=
  match beh.init with
  | Except.error e =>
    ([Event.error none ("Failed to initialize agent: " ++ pyExcMsg e)], none)
  | Except.ok _ =>
    let st0 : LoopSt :=
      { currentStep := 0, state := AgentState.running,
        memory := [{ role := "user", content := prompt }], actions := [] }
    let startedEv := Event.started 0 ("Starting to process: \x27" ++ truncAt 50 prompt ++ "\x27")
    let r := runLoop beh maxSteps (Int.toNat maxSteps) st0
    let completeEv := Event.complete
      (truncAt 300 (lastRoleContent 3 r.1.memory "No final content available"))
      (pyLastN 3 r.1.actions) r.1.currentStep
    (startedEv :: r.2 ++ [completeEv], none)

/-- Source lines 124-281, the body of the generator's outer `try`.
`agentMaxSteps` is the `max_steps` of an agent handed over by `execute`
(`some`), or `none` when the generator must construct its own agent (lines
126-142, where the `max_steps` parameter overrides the default).  The second
component is an exception escaping the `try` body, to be handled by lines
282-290. -/
def runWithStreamingBody (beh : AgentBehavior) (prompt : String)
    (maxSteps agentMaxSteps : Option Int) : List Event × Option PyExc :=
  match agentMaxSteps with
  | some ms => streamAfterCreate beh prompt ms
  | none =>
    match beh.construct with
    | Except.error e =>
      ([Event.error none ("Failed to create Manus agent: " ++ pyExcMsg e)], none)
    | Except.ok _ =>
      let ms := match maxSteps with
        | some m => m
        | none => beh.defaultMaxSteps
      streamAfterCreate beh prompt ms

/-- Source lines 118-290: `_run_with_streaming`, i.e. the generator body with
its outer `except Exception` (lines 282-290) converting any escaping
exception into one final error event. -/
def run_with_streaming (beh : AgentBehavior) (prompt : String)
    (maxSteps agentMaxSteps : Option Int) : List Event :=
  let r := runWithStreamingBody beh prompt maxSteps agentMaxSteps
  match r.2 with
  | none => r.1
  | some e => r.1 ++ [Event.error none (pyExcMsg e)]

/- The tool adapter `execute`, source lines 44-85. -/

/-- `app.tool.base.ToolResult`, as used here: an `output` payload (the
dictionary handed to `json.dumps`) or an `error` string. -/
structure ToolResult where
  output : Option Json := none
  error : Option String := none

/-- The union returned by `execute`: a single terminal result, or the
streaming generator (modelled by the event sequence it yields). -/
inductive ExecOutcome
  | single (result : ToolResult)
  | stream (events : List Event)

/-- Source lines 55-79: the body of `execute`'s `try` block — construct the
agent, apply the `max_steps` override, then either hand the agent to the
streaming generator or await `agent.run(prompt)` and wrap the raw result. -/
def executeTryBody (beh : AgentBehavior) (prompt : String) (streaming : Bool)
    (maxSteps : Option Int) : Except PyExc ExecOutcome :=
  match beh.construct with
  | Except.error e => Except.error e
  | Except.ok _ =>
    let agentMaxSteps : Int := match maxSteps with
      | some m => m
      | none => beh.defaultMaxSteps
    if streaming then
      Except.ok (ExecOutcome.stream (run_with_streaming beh prompt maxSteps (some agentMaxSteps)))
    else
      match beh.run prompt with
      | Except.error e => Except.error e
      | Except.ok result =>
        Except.ok (ExecOutcome.single
          { output := some (Json.obj [("status", Json.str "complete"),
                                      ("result", Json.str result)]),
            error := none })

/-- Source lines 44-85: `execute`, with the `except Exception` of lines 81-85
turning any exception from the `try` body into a terminal error result.  The
`Except` result type records whether an exception propagates to the caller. -/
def execute (beh : AgentBehavior) (prompt : String) (streaming : Bool)
    (maxSteps : Option Int) : Except PyExc ExecOutcome :=
  match executeTryBody beh prompt streaming maxSteps with
  | Except.ok o => Except.ok o
  | Except.error e =>
    Except.ok (ExecOutcome.single
      { output := none, error := some ("Error running Manus agent: " ++ pyExcMsg e) })

/- Spec-side definitions, for comparing the implementation against claimed
behaviour that is absent from the source. -/

/-- Modelled from the spec: the terminal payload that §4.2 claims for the
non-streaming path — the §4.1 summary under `result` and the raw output
under `full_result`.  The source builds a different payload; this definition
exists only to be compared against it. -/
def specNonStreamingPayload (raw summary : String) : Json :=
  Json.obj [("status", Json.str "complete"), ("result", Json.str summary),
            ("full_result", Json.str raw)]

/-- Modelled from the spec: the "split on `Step `" rule §4.1 step 3 claims
for non-JSON input — with multiple segments, the last non-empty segment
prefixed `Final result: `.  No such rule exists in the source; this
definition exists only to be compared against it. -/
def specStepSplitSummary (result : String) : Option String :=
  let parts := pySplit "Step " result
  if parts.length > 1 then
    ((parts.filter (fun p => p != "")).getLast?).map (fun p => "Final result: " ++ p)
  else none

/- Concrete inputs and agent behaviours used by the theorems below. -/

/-- A JSON mapping whose `flight_search_details` value is a number, not a
mapping. -/
def c1input : String := "\x7b\"flight_search_details\": 1\x7d"

/-- A JSON mapping with an extracted-content marker key but no flight-search
key. -/
def c5input : String := "\x7b\"interactive_elements\": 1\x7d"

/-- A non-JSON string with two "Step " segments. -/
def c6input : String := "Step 1: a Step 2: b"

/-- A benign agent: construction, initialization and `run` succeed, `think`
never requests an action and leaves the state running. -/
def behOk : AgentBehavior :=
  { construct := Except.ok ()
    defaultMaxSteps := 5
    run := fun _ => Except.ok "hello"
    init := Except.ok ()
    think := fun _ m => Except.ok (false, AgentState.running, m)
    act := fun _ m => Except.ok ("done", AgentState.running, m) }

/-- An agent whose `think` raises on every step. -/
def behThinkBoom : AgentBehavior :=
  { behOk with think := fun _ _ => Except.error (PyExc.other "boom") }

/-- An agent whose `think` requests an action and whose `act` raises on every
step. -/
def behActBoom : AgentBehavior :=
  { behOk with
    think := fun _ m => Except.ok (true, AgentState.running, m)
    act := fun _ _ => Except.error (PyExc.other "boom") }

/-- The loop state right after initialization with prompt "hi". -/
def stInit : LoopSt :=
  { currentStep := 0, state := AgentState.running,
    memory := [{ role := "user", content := "hi" }], actions := [] }

/-- C1: the claim says `_extract_summary_from_result` is total and falls back
to truncation on every input, including a JSON mapping whose
`flight_search_details` value is not a mapping.  On exactly that input the
code calls `.get` on a non-dict and raises `AttributeError`, which the
`except (json.JSONDecodeError, TypeError, ValueError)` clause does not
catch, so the exception propagates: the code violates the claimed (and
clearly intended) totality. -/
theorem c1_summarizer_raises_attribute_error :
    Json.parse c1input = some (Json.obj [("flight_search_details", Json.num 1)]) ∧
    extract_summary_from_result c1input = Except.error PyExc.attributeError :=
  ⟨rfl, rfl⟩

/-- C2 counterexample: for raw result "hello" the non-streaming path returns
the payload `status/result` with the raw string under `result`, which
differs from the claimed payload (summary under `result`, raw under
`full_result`). -/
theorem c2_counterexample :
    execute behOk "p" false none = Except.ok (ExecOutcome.single
      { output := some (Json.obj [("status", Json.str "complete"),
                                  ("result", Json.str "hello")]),
        error := none }) ∧
    extract_summary_from_result "hello" = Except.ok "Result: hello" ∧
    Json.obj [("status", Json.str "complete"), ("result", Json.str "hello")] ≠
      specNonStreamingPayload "hello" "Result: hello" :=
  ⟨rfl, rfl, by simp [specNonStreamingPayload]⟩

/-- C2 (amended): on the non-streaming path, when construction succeeds and
`agent.run(prompt)` returns raw without raising, `execute` returns a single
terminal result whose payload is `status: "complete", result: raw` — the raw
output itself, not its summary, and with no `full_result` key. -/
theorem c2_amended_result_is_raw (beh : AgentBehavior) (prompt : String)
    (maxSteps : Option Int) (raw : String)
    (h1 : beh.construct = Except.ok ())
    (h2 : beh.run prompt = Except.ok raw) :
    execute beh prompt false maxSteps = Except.ok (ExecOutcome.single
      { output := some (Json.obj [("status", Json.str "complete"),
                                  ("result", Json.str raw)]),
        error := none }) := by
  simp [execute, executeTryBody, h1, h2]

theorem c2_witness :
    behOk.construct = Except.ok () ∧ behOk.run "p" = Except.ok "hello" ∧
    execute behOk "p" false none = Except.ok (ExecOutcome.single
      { output := some (Json.obj [("status", Json.str "complete"),
                                  ("result", Json.str "hello")]),
        error := none }) :=
  ⟨rfl, rfl, c2_amended_result_is_raw behOk "p" none "hello" rfl rfl⟩

/-- C3: no exception escapes the tool adapter or the streaming driver — for
every agent behaviour and parameters, `execute` resolves to a returned
outcome (never a propagated exception), and no exception escapes the
streaming generator's `try` body, so every failure surfaces as an error
result or error event. -/
theorem c3_no_exception_escapes (beh : AgentBehavior) (prompt : String)
    (streaming : Bool) (maxSteps agentMaxSteps : Option Int) :
    (∃ o, execute beh prompt streaming maxSteps = Except.ok o) ∧
    (runWithStreamingBody beh prompt maxSteps agentMaxSteps).2 = none := by
  constructor
  · cases h : executeTryBody beh prompt streaming maxSteps with
    | ok o => exact ⟨o, by simp [execute, h]⟩
    | error e =>
      exact ⟨ExecOutcome.single
        { output := none, error := some ("Error running Manus agent: " ++ pyExcMsg e) },
        by simp [execute, h]⟩
  · cases agentMaxSteps with
    | some ms => cases h : beh.init <;> simp [runWithStreamingBody, streamAfterCreate, h]
    | none =>
      cases hc : beh.construct with
      | error e => simp [runWithStreamingBody, hc]
      | ok u => cases h : beh.init <;>
          simp [runWithStreamingBody, streamAfterCreate, hc, h]

/-- C5 counterexample: a JSON object carrying the extracted-content marker
key `interactive_elements` (and no flight-search key) is summarized as an
"Extracted page information" synopsis, not as the claimed `Result: `
truncation. -/
theorem c5_counterexample :
    Json.parse c5input = some (Json.obj [("interactive_elements", Json.num 1)]) ∧
    hasKey [("interactive_elements", Json.num 1)] "flight_search_details" = false ∧
    extract_summary_from_result c5input =
      Except.ok "Extracted page information with 1 data points" ∧
    (Except.ok "Extracted page information with 1 data points" :
        Except PyExc String) ≠
      Except.ok ("Result: " ++ truncAt 150 c5input) := by
  refine ⟨rfl, rfl, rfl, ?_⟩
  simp only [ne_eq, Except.ok.injEq]
  decide

/-- C5 (amended): for every string parsing to a JSON object that contains
neither `flight_search_details` nor any of the extracted-content marker keys
`interactive_elements`, `available_flights`, `flight_search`, the summarizer
returns the input prefixed "Result: " and truncated to 150 characters plus
an ellipsis when longer. -/
theorem c5_amended_plain_object_truncates (result : String)
    (kvs : List (String × Json))
    (hp : Json.parse result = some (Json.obj kvs))
    (h1 : hasKey kvs "flight_search_details" = false)
    (h2 : hasKey kvs "interactive_elements" = false)
    (h3 : hasKey kvs "available_flights" = false)
    (h4 : hasKey kvs "flight_search" = false) :
    extract_summary_from_result result = Except.ok ("Result: " ++ truncAt 150 result) := by
  have hbody : extractSummaryTryBody result =
      Except.ok ("Result: " ++ truncAt 150 result) := by
    unfold extractSummaryTryBody
    rw [hp]
    simp [h1, h2, h3, h4]
  unfold extract_summary_from_result
  rw [hbody]

theorem c5_witness :
    Json.parse "\x7b\"a\": 1\x7d" = some (Json.obj [("a", Json.num 1)]) ∧
    extract_summary_from_result "\x7b\"a\": 1\x7d" =
      Except.ok ("Result: " ++ truncAt 150 "\x7b\"a\": 1\x7d") :=
  ⟨rfl, c5_amended_plain_object_truncates "\x7b\"a\": 1\x7d" [("a", Json.num 1)]
    rfl rfl rfl rfl rfl⟩

/-- C6 counterexample: on a non-JSON string with several "Step " segments the
code still returns the 100-character `Result: ` truncation; the claimed
"Final result: " last-segment rule does not exist in the source. -/
theorem c6_counterexample :
    Json.parse c6input = none ∧
    specStepSplitSummary c6input = some "Final result: 2: b" ∧
    extract_summary_from_result c6input = Except.ok ("Result: " ++ c6input) ∧
    (Except.ok ("Result: " ++ c6input) : Except PyExc String) ≠
      Except.ok "Final result: 2: b" := by
  refine ⟨rfl, rfl, rfl, ?_⟩
  simp only [ne_eq, Except.ok.injEq]
  decide

/-- C6 (amended): for every string on which JSON parsing fails, the
summarizer returns the first 100 characters plus "..." (when longer than 100
characters) prefixed "Result: "; no "Step "-splitting is performed. -/
theorem c6_amended_parse_failure_truncates (result : String)
    (hp : Json.parse result = none) :
    extract_summary_from_result result = Except.ok ("Result: " ++ truncAt 100 result) := by
  have hbody : extractSummaryTryBody result = Except.error PyExc.jsonDecodeError := by
    unfold extractSummaryTryBody
    rw [hp]
  unfold extract_summary_from_result
  rw [hbody]
  simp

theorem c6_witness :
    Json.parse "hello" = none ∧
    extract_summary_from_result "hello" = Except.ok ("Result: " ++ truncAt 100 "hello") :=
  ⟨rfl, c6_amended_parse_failure_truncates "hello" rfl⟩

/-- C7: in any streaming run, when `think()` raises during a step the driver
emits an error event carrying that step number, appends the error note for
that step to the running action log, forces the agent state to FINISHED, and
stops — the loop returns immediately, producing no further events. -/
theorem c7_think_error_aborts_run (beh : AgentBehavior) (maxSteps : Int) (f : Nat)
    (st : LoopSt) (e : PyExc)
    (h1 : st.state = AgentState.running)
    (h2 : st.currentStep < maxSteps)
    (h3 : beh.think (st.currentStep + 1) st.memory = Except.error e) :
    runLoop beh maxSteps (f + 1) st =
      ({ currentStep := st.currentStep + 1, state := AgentState.finished,
         memory := st.memory,
         actions := st.actions ++
           ["Step " ++ toString (st.currentStep + 1) ++ ": Error - " ++ pyExcMsg e] },
       [Event.error (some (st.currentStep + 1)) (pyExcMsg e)]) := by
  simp [runLoop, h1, h2, stepBody, h3]

theorem c7_witness :
    stInit.state = AgentState.running ∧ stInit.currentStep < 3 ∧
    behThinkBoom.think (stInit.currentStep + 1) stInit.memory =
      Except.error (PyExc.other "boom") ∧
    runLoop behThinkBoom 3 2 stInit =
      ({ currentStep := 1, state := AgentState.finished,
         memory := [{ role := "user", content := "hi" }],
         actions := ["Step 1: Error - boom"] },
       [Event.error (some 1) "boom"]) :=
  ⟨rfl, by decide, rfl,
    c7_think_error_aborts_run behThinkBoom 3 1 stInit (PyExc.other "boom")
      rfl (by decide) rfl⟩

/-- C8: a streaming run over an agent whose step budget is zero or negative,
with successful initialization, yields exactly two events — `started`
followed by `complete` — and no step events at all. -/
theorem c8_zero_budget_two_events (beh : AgentBehavior) (prompt : String) (maxS : Int)
    (h1 : beh.init = Except.ok ())
    (h2 : maxS ≤ 0) :
    run_with_streaming beh prompt none (some maxS) =
      [Event.started 0 ("Starting to process: \x27" ++ truncAt 50 prompt ++ "\x27"),
       Event.complete (truncAt 300 prompt) [] 0] := by
  have hfuel : Int.toNat maxS = 0 := Int.toNat_eq_zero.mpr h2
  simp [run_with_streaming, runWithStreamingBody, streamAfterCreate, h1, hfuel, runLoop,
        lastRoleContent, pyLastN]

theorem c8_witness :
    behOk.init = Except.ok () ∧ ((0 : Int) ≤ 0) ∧
    run_with_streaming behOk "hi" none (some 0) =
      [Event.started 0 ("Starting to process: \x27" ++ truncAt 50 "hi" ++ "\x27"),
       Event.complete (truncAt 300 "hi") [] 0] :=
  ⟨rfl, by decide, c8_zero_budget_two_events behOk "hi" 0 rfl (by decide)⟩

/-- C10: in any streaming run, when `think()` succeeds (requesting an action,
agent still running) and `act()` then raises, the driver emits the thinking
event and an error event for that step but leaves the agent state running
(not FINISHED) and appends nothing to the action log — the loop recurses and
proceeds to further steps until the budget is exhausted or the agent
declares itself finished, in contrast to the abort policy for `think()`
failures. -/
theorem c10_act_error_continues (beh : AgentBehavior) (maxSteps : Int) (f : Nat)
    (st : LoopSt) (e : PyExc) (mem1 : List Msg)
    (h1 : st.state = AgentState.running)
    (h2 : st.currentStep < maxSteps)
    (h3 : beh.think (st.currentStep + 1) st.memory =
      Except.ok (true, AgentState.running, mem1))
    (h4 : beh.act (st.currentStep + 1) mem1 = Except.error e) :
    runLoop beh maxSteps (f + 1) st =
      ((runLoop beh maxSteps f
          { currentStep := st.currentStep + 1, state := AgentState.running,
            memory := mem1, actions := st.actions }).1,
       Event.thinking (st.currentStep + 1)
           (truncAt 150 (lastRoleContent 2 mem1 "No content available")) ::
       Event.error (some (st.currentStep + 1)) ("Act error: " ++ pyExcMsg e) ::
       (runLoop beh maxSteps f
          { currentStep := st.currentStep + 1, state := AgentState.running,
            memory := mem1, actions := st.actions }).2) := by
  simp [runLoop, h1, h2, stepBody, h3, h4]

theorem c10_witness :
    behActBoom.think 1 stInit.memory =
      Except.ok (true, AgentState.running, stInit.memory) ∧
    behActBoom.act 1 stInit.memory = Except.error (PyExc.other "boom") ∧
    runLoop behActBoom 2 2 stInit =
      ({ currentStep := 2, state := AgentState.running,
         memory := [{ role := "user", content := "hi" }], actions := [] },
       [Event.thinking 1 "hi", Event.error (some 1) "Act error: boom",
        Event.thinking 2 "hi", Event.error (some 2) "Act error: boom"]) :=
  ⟨rfl, rfl, by
    have h := c10_act_error_continues behActBoom 2 1 stInit (PyExc.other "boom")
      stInit.memory rfl (by decide) rfl rfl
    simpa using h⟩

/- Invariant lemmas for the step loop, feeding C9. -/

lemma eventSteps_append (a b : List Event) :
    eventSteps (a ++ b) = eventSteps a ++ eventSteps b :=
  List.filterMap_append a b Event.stepOf

lemma pairwise_le_of_all_eq (c : Int) (l : List Int) (h : ∀ x ∈ l, x = c) :
    l.Pairwise (fun a b => a ≤ b) := by
  induction l with
  | nil => exact List.Pairwise.nil
  | cons x xs ih =>
    refine List.Pairwise.cons ?_ (ih (fun y hy => h y (by simp [hy])))
    intro y hy
    have hx := h x (by simp)
    have hy2 := h y (by simp [hy])
    omega

/-- One loop iteration advances `current_step` by exactly one and stamps
every event it emits with that step number. -/
lemma stepBody_spec (beh : AgentBehavior) (st : LoopSt) :
    (stepBody beh st).1.currentStep = st.currentStep + 1 ∧
    ∀ s ∈ eventSteps (stepBody beh st).2, s = st.currentStep + 1 := by
  unfold stepBody
  rcases h : beh.think (st.currentStep + 1) st.memory with e | ⟨sa, st1, mem1⟩
  · simp [h, eventSteps, Event.stepOf]
  · cases sa with
    | false => simp [h, eventSteps, Event.stepOf]
    | true =>
      rcases ha : beh.act (st.currentStep + 1) mem1 with e | ⟨res, st2, mem2⟩
      · simp [h, ha, eventSteps, Event.stepOf]
      · rcases hs : extract_summary_from_result res with e | s
        · simp [h, ha, hs, eventSteps, Event.stepOf]
        · simp [h, ha, hs, eventSteps, Event.stepOf]

/-- Loop invariant: starting within budget, `current_step` only grows, never
passes `max_steps`, every emitted step number lies strictly above the entry
step and at most at the exit step, and the step numbers are emitted in
non-decreasing order. -/
lemma runLoop_inv (beh : AgentBehavior) (maxSteps : Int) :
    ∀ (f : Nat) (st : LoopSt), st.currentStep ≤ maxSteps →
      st.currentStep ≤ (runLoop beh maxSteps f st).1.currentStep ∧
      (runLoop beh maxSteps f st).1.currentStep ≤ maxSteps ∧
      (∀ s ∈ eventSteps (runLoop beh maxSteps f st).2,
        st.currentStep < s ∧ s ≤ (runLoop beh maxSteps f st).1.currentStep) ∧
      (eventSteps (runLoop beh maxSteps f st).2).Pairwise (fun a b => a ≤ b) := by
  intro f
  induction f with
  | zero =>
    intro st h
    refine ⟨le_refl _, h, ?_, ?_⟩ <;> simp [runLoop, eventSteps]
  | succ f ih =>
    intro st h
    by_cases hg : st.state = AgentState.running ∧ st.currentStep < maxSteps
    · obtain ⟨hs1, hs2⟩ := stepBody_spec beh st
      by_cases hfin : (stepBody beh st).1.state = AgentState.finished
      · have hr : runLoop beh maxSteps (f + 1) st = stepBody beh st := by
          simp only [runLoop]
          rw [if_pos hg, if_pos hfin]
        rw [hr]
        refine ⟨by omega, by omega, ?_, pairwise_le_of_all_eq _ _ hs2⟩
        intro s hs
        have := hs2 s hs
        omega
      · have hfst : (runLoop beh maxSteps (f + 1) st).1 =
            (runLoop beh maxSteps f (stepBody beh st).1).1 := by
          simp only [runLoop]
          rw [if_pos hg, if_neg hfin]
        have hsnd : (runLoop beh maxSteps (f + 1) st).2 =
            (stepBody beh st).2 ++ (runLoop beh maxSteps f (stepBody beh st).1).2 := by
          simp only [runLoop]
          rw [if_pos hg, if_neg hfin]
        have hle : (stepBody beh st).1.currentStep ≤ maxSteps := by omega
        obtain ⟨ih1, ih2, ih3, ih4⟩ := ih (stepBody beh st).1 hle
        rw [hfst, hsnd, eventSteps_append]
        refine ⟨by omega, ih2, ?_, ?_⟩
        · intro s hs
          rcases List.mem_append.mp hs with h1 | h2
          · have := hs2 s h1
            constructor <;> omega
          · have := ih3 s h2
            constructor <;> omega
        · refine List.pairwise_append.mpr ⟨pairwise_le_of_all_eq _ _ hs2, ih4, ?_⟩
          intro a ha b hb
          have h1 := hs2 a ha
          have h2 := ih3 b hb
          omega
    · have hr : runLoop beh maxSteps (f + 1) st = (st, []) := by
        simp only [runLoop]
        rw [if_neg hg]
      rw [hr]
      refine ⟨le_refl _, h, ?_, ?_⟩ <;> simp [eventSteps]

/-- C9: within a single streaming run over a nonnegative step budget, the
`current_step` values the run reports (the `step` payload of each event and
the final `total_steps`) start at 0, are monotonically non-decreasing in
emission order, and never exceed the agent's `max_steps`. -/
theorem c9_current_step_monotone_bounded (beh : AgentBehavior) (prompt : String)
    (maxStepsParam : Option Int) (maxS : Int) (h : 0 ≤ maxS) :
    (eventSteps (run_with_streaming beh prompt maxStepsParam (some maxS))).Pairwise
      (fun a b => a ≤ b) ∧
    ∀ s ∈ eventSteps (run_with_streaming beh prompt maxStepsParam (some maxS)),
      0 ≤ s ∧ s ≤ maxS := by
  cases hi : beh.init with
  | error e =>
    simp [run_with_streaming, runWithStreamingBody, streamAfterCreate, hi, eventSteps,
      Event.stepOf]
  | ok u =>
    obtain ⟨hinv1, hinv2, hinv3, hinv4⟩ := runLoop_inv beh maxS (Int.toNat maxS)
      { currentStep := 0, state := AgentState.running,
        memory := [{ role := "user", content := prompt }], actions := [] } (by simpa using h)
    simp only [run_with_streaming, runWithStreamingBody, streamAfterCreate, hi] at *
    rw [show ∀ (a : Event) (l : List Event) (b : Event),
        a :: l ++ [b] = [a] ++ (l ++ [b]) from fun a l b => rfl,
      eventSteps_append, eventSteps_append]
    constructor
    · refine List.pairwise_append.mpr ⟨?_, List.pairwise_append.mpr ⟨hinv4, ?_, ?_⟩, ?_⟩
      · simp [eventSteps, Event.stepOf]
      · simp [eventSteps, Event.stepOf]
      · intro a ha b hb
        simp only [eventSteps, Event.stepOf, List.filterMap_cons, List.filterMap_nil] at hb
        have hb2 : b = (runLoop beh maxS (Int.toNat maxS)
            { currentStep := 0, state := AgentState.running,
              memory := [{ role := "user", content := prompt }],
              actions := [] }).1.currentStep := by
          simpa using hb
        have := hinv3 a ha
        omega
      · intro a ha b hb
        have ha2 : a = 0 := by
          simpa [eventSteps, Event.stepOf] using ha
        rcases List.mem_append.mp hb with h1 | h2
        · have := hinv3 b h1
          omega
        · have hb2 : b = (runLoop beh maxS (Int.toNat maxS)
              { currentStep := 0, state := AgentState.running,
                memory := [{ role := "user", content := prompt }],
                actions := [] }).1.currentStep := by
            simpa [eventSteps, Event.stepOf] using h2
          omega
    · intro s hs
      rcases List.mem_append.mp hs with h1 | h2
      · have hs0 : s = 0 := by
          simpa [eventSteps, Event.stepOf] using h1
        omega
      · rcases List.mem_append.mp h2 with h3 | h4
        · have := hinv3 s h3
          omega
        · have hs2 : s = (runLoop beh maxS (Int.toNat maxS)
              { currentStep := 0, state := AgentState.running,
                memory := [{ role := "user", content := prompt }],
                actions := [] }).1.currentStep := by
            simpa [eventSteps, Event.stepOf] using h4
          omega

theorem c9_witness :
    ((0 : Int) ≤ 2) ∧
    ((eventSteps (run_with_streaming behOk "hi" none (some 2))).Pairwise
        (fun a b => a ≤ b) ∧
      ∀ s ∈ eventSteps (run_with_streaming behOk "hi" none (some 2)),
        0 ≤ s ∧ s ≤ 2) :=
  ⟨by decide, c9_current_step_monotone_bounded behOk "hi" none 2 (by decide)⟩

end OpenManus
